import Mathlib

/-!
Verification of `pullTiles.py` (PullMapRasterTile).

A shallow embedding of the map-tile bulk downloader `pullTiles.py`
(`RegionalAMapDownloader`) together with theorems settling the frozen
claims about its specification.

Modelling conventions:

* The filesystem is a pair of lists (existing file paths, existing
  directories); `os.path.exists`, `os.makedirs(..., exist_ok=True)` and
  file writes are list operations on this state.
* The HTTP layer is an oracle `Env.resp : ℕ → HttpResponse` giving, for each
  retry index of one `download_tile` call, either a transport-level
  exception (`requests.get` raising) or an HTTP status code.  Possible
  filesystem failures are two oracle flags (`mkdirRaises`, `writeRaises`).
* A Python function call either returns a value or raises; `download_tile`
  therefore produces a `PyResult Outcome` where `raised` models an
  exception escaping the function.  The code paths of `download_tile` are
  labelled by `Outcome`: the early `return False` when the file exists is
  `skippedExisting`, `return True` after a 200-write is `success`, and the
  fall-through `return False` after the retry loop is `failed`; the Python
  boolean actually returned is `Outcome.toBool`.
* `time.sleep` calls are recorded as a list of slept durations (seconds).
* The floating-point arithmetic of the Web-Mercator projection
  (`_latlon_to_tile`) is modelled over the real numbers, with Python's
  `int(·)` as truncation toward zero.
* Rationals stand in for the floats printed by the progress report
  (success rate, throughput); `time.time() - start_time` at collection
  step `i` is an abstract parameter `elapsed : ℕ → ℚ`.
-/

/-- The part of the `config` dictionary that the claims depend on
(`save_dir`, `overwrite`; headers, worker count and request interval do not
influence any verified property). -/
structure Config where
  save_dir : String
  overwrite : Bool
deriving DecidableEq

/-- Filesystem state: the set of existing files and of existing
directories, as lists of paths. -/
structure FS where
  files : List String
  dirs : List String
deriving DecidableEq

/-- Models `os.path.exists(path)` for a file path. -/
def FS.fileExists (fs : FS) (p : String) : Bool :=
  fs.files.contains p

/-- Models `os.makedirs(d, exist_ok=True)`: idempotent directory creation. -/
def FS.mkdirs (fs : FS) (d : String) : FS :=
  if fs.dirs.contains d then fs else ⟨fs.files, d :: fs.dirs⟩

/-- Writing the response body to `path` (`open(path,'wb')` + `f.write`):
the file exists afterwards. -/
def FS.writeFile (fs : FS) (p : String) : FS :=
  if fs.files.contains p then fs else ⟨p :: fs.files, fs.dirs⟩

/-- Behaviour of one `requests.get` call: either a transport-level
exception is raised, or a response with the given status code arrives. -/
inductive HttpResponse where
  | exn
  | status (code : ℕ)
deriving DecidableEq

/-- Oracle for the effectful collaborators of one `download_tile` call. -/
structure Env where
  resp : ℕ → HttpResponse
  mkdirRaises : Bool
  writeRaises : Bool

/-- Which `return` of `download_tile` was taken.  `toBool` recovers the
Python value returned. -/
inductive Outcome where
  | success
  | skippedExisting
  | failed
deriving DecidableEq

/-- The Python boolean `download_tile` returns on each outcome: only the
200-and-written path returns `True`. -/
def Outcome.toBool : Outcome → Bool
  | .success => true
  | .skippedExisting => false
  | .failed => false

/-- Return-or-raise of a Python call. -/
inductive PyResult (α : Type) where
  | returns (a : α)
  | raised
deriving DecidableEq

/-- Observable trace of one `download_tile(z, x, y)` call. -/
structure FetchTrace where
  result : PyResult Outcome
  httpCalls : ℕ
  sleeps : List ℕ
  fs : FS
  downloaded : ℕ
deriving DecidableEq

/-- The tile-server URL template
`https://webrd04.is.autonavi.com/appmaptile?lang=zh_cn&size=1&scale=1&style=7&x={x}&y={y}&z={z}`. -/
def tile_url (z x y : ℤ) : String :=
  "https://webrd04.is.autonavi.com/appmaptile?lang=zh_cn&size=1&scale=1&style=7&x="
    ++ toString x ++ "&y=" ++ toString y ++ "&z=" ++ toString z

/-- The parent directory of the target file, `{save_dir}/{z}/{x}`. -/
def tile_dir (cfg : Config) (z x : ℤ) : String :=
  cfg.save_dir ++ "/" ++ toString z ++ "/" ++ toString x

/-- The target file path `os.path.join(save_dir, f'{z}/{x}/{y}.png')`. -/
def tile_path (cfg : Config) (z x y : ℤ) : String :=
  tile_dir cfg z x ++ "/" ++ toString y ++ ".png"

/-- Partial outcome of the retry loop `for retry in range(3)`.  The loop
body is wrapped in `try ... except Exception`, so the loop itself never
raises. -/
structure LoopOut where
  outcome : Outcome
  httpCalls : ℕ
  sleeps : List ℕ
  fs : FS
  downloaded : ℕ
deriving DecidableEq

/-- The retry loop of `download_tile`: `fuel` iterations remain and the
current iteration index is `retry`.  On status 200 the body is written and
`True` returned (incrementing `self.downloaded`); a write error is caught
by the `except` and backed off like a transport error (`sleep(2**retry)`);
a non-200 status sleeps 1 second; exhausting the loop falls through to
`return False`. -/
def retryLoop (env : Env) (path : String) : ℕ → ℕ → FS → ℕ → LoopOut
  | 0, _, fs, d => ⟨.failed, 0, [], fs, d⟩
  | fuel + 1, retry, fs, d =>
    match env.resp retry with
    | .exn =>
      let r := retryLoop env path fuel (retry + 1) fs d
      ⟨r.outcome, r.httpCalls + 1, 2 ^ retry :: r.sleeps, r.fs, r.downloaded⟩
    | .status code =>
      if code = 200 then
        if env.writeRaises then
          let r := retryLoop env path fuel (retry + 1) fs d
          ⟨r.outcome, r.httpCalls + 1, 2 ^ retry :: r.sleeps, r.fs, r.downloaded⟩
        else
          ⟨.success, 1, [], fs.writeFile path, d + 1⟩
      else
        let r := retryLoop env path fuel (retry + 1) fs d
        ⟨r.outcome, r.httpCalls + 1, 1 :: r.sleeps, r.fs, r.downloaded⟩

/-- Models `download_tile(self, z, x, y)`.  The existence check precedes the
`os.makedirs` call; `os.makedirs` is *outside* the `try`, so its failure
escapes the function (`PyResult.raised`). -/
def download_tile (cfg : Config) (env : Env) (fs : FS) (downloaded : ℕ)
    (z x y : ℤ) : FetchTrace :=
  let path := tile_path cfg z x y
  if !cfg.overwrite && fs.fileExists path then
    ⟨.returns .skippedExisting, 0, [], fs, downloaded⟩
  else if env.mkdirRaises then
    ⟨.raised, 0, [], fs, downloaded⟩
  else
    let fs1 := fs.mkdirs (tile_dir cfg z x)
    let r := retryLoop env path 3 0 fs1 downloaded
    ⟨.returns r.outcome, r.httpCalls, r.sleeps, r.fs, r.downloaded⟩

/-- One progress line printed by `run`:
`f'进度: {i+1}/{total} | 成功率: {success/(i+1):.1%} | 速度: {i/elapsed:.1f}tile/s'`. -/
structure ProgressLine where
  completed : ℕ
  total : ℕ
  rate : ℚ
  throughput : ℚ
deriving DecidableEq

/-- The result-collection loop of `run` (`for i, future in enumerate(futures)`),
consuming the booleans returned by the futures.  `i` is the enumeration
index and `success` the running success counter; it returns the final
index (= number of results collected so far), the final success count and
the progress lines in emission order. -/
def runLoop (total : ℕ) (elapsed : ℕ → ℚ) :
    List Bool → ℕ → ℕ → ℕ × ℕ × List ProgressLine
  | [], i, success => (i, success, [])
  | b :: rest, i, success =>
    let success1 := if b then success + 1 else success
    let line : List ProgressLine :=
      if i % 100 = 0 then
        [⟨i + 1, total, (success1 : ℚ) / ((i : ℚ) + 1), (i : ℚ) / elapsed i⟩]
      else []
    let r := runLoop total elapsed rest (i + 1) success1
    (r.1, r.2.1, line ++ r.2.2)

/-- The whole collection phase of `run` on the list of per-tile outcomes:
each future yields `Outcome.toBool` of its tile's outcome, `total` is the
number of submitted coordinates. -/
def runCollect (elapsed : ℕ → ℚ) (os : List Outcome) : ℕ × ℕ × List ProgressLine :=
  runLoop os.length elapsed (os.map Outcome.toBool) 0 0

/-- Python's `int(r)` on a float: truncation toward zero. -/
noncomputable def pyInt (r : ℝ) : ℤ :=
  if 0 ≤ r then ⌊r⌋ else ⌈r⌉

/-- Models `_latlon_to_tile(lat, lon, zoom)`: the spherical-Mercator tile
projection, float arithmetic modelled over ℝ
(`math.radians`, `math.asinh`, `math.tan`). -/
noncomputable def latlon_to_tile (lat lon : ℝ) (zoom : ℕ) : ℤ × ℤ :=
  let lat_rad := lat * Real.pi / 180
  let n : ℝ := 2 ^ zoom
  (pyInt ((lon + 180) / 360 * n),
   pyInt ((1 - Real.arsinh (Real.tan lat_rad) / Real.pi) / 2 * n))

/-- The quadruple returned by `_get_tile_range`. -/
structure TileRange where
  x_min : ℤ
  x_max : ℤ
  y_min : ℤ
  y_max : ℤ

/-- Models `_get_tile_range(zoom)`: project the NW corner `(max_lat, min_lon)` and
the SE corner `(min_lat, max_lon)` of the hard-coded Shanghai bounds
(`min_lon=120.85, max_lon=122.20, min_lat=30.67, max_lat=31.88`), take the
elementwise min/max, expand by one tile on every side and clip to
`[0, 2^zoom - 1]`. -/
noncomputable def get_tile_range (zoom : ℕ) : TileRange :=
  let p1 := latlon_to_tile 31.88 120.85 zoom
  let p2 := latlon_to_tile 30.67 122.20 zoom
  let max_tile : ℤ := 2 ^ zoom - 1
  { x_min := max 0 (min p1.1 p2.1 - 1)
    x_max := min max_tile (max p1.1 p2.1 + 1)
    y_min := max 0 (min p1.2 p2.2 - 1)
    y_max := min max_tile (max p1.2 p2.2 + 1) }

/-- Truncating `f * 2^z` for a fraction `f ∈ [0, 1)` lands in
`[0, 2^z - 1]`. -/
lemma pyInt_frac_bounds (f : ℝ) (z : ℕ) (h0 : 0 ≤ f) (h1 : f < 1) :
    0 ≤ pyInt (f * 2 ^ z) ∧ pyInt (f * 2 ^ z) ≤ 2 ^ z - 1 := by
  have h2 : (0 : ℝ) < 2 ^ z := by positivity
  have hv : 0 ≤ f * 2 ^ z := by positivity
  rw [pyInt, if_pos hv]
  refine ⟨Int.floor_nonneg.mpr hv, ?_⟩
  have hlt : f * 2 ^ z < 2 ^ z := by nlinarith
  have : ⌊f * 2 ^ z⌋ < 2 ^ z := by
    apply Int.floor_lt.mpr
    push_cast
    linarith
  linarith

/-- For a latitude in `(0°, 45°)` the Mercator `y`-fraction
`(1 - asinh(tan(lat·π/180))/π)/2` lies in `[0, 1)`. -/
lemma yfrac_bounds (lat : ℝ) (h0 : 0 < lat) (h45 : lat < 45) :
    0 ≤ (1 - Real.arsinh (Real.tan (lat * Real.pi / 180)) / Real.pi) / 2 ∧
    (1 - Real.arsinh (Real.tan (lat * Real.pi / 180)) / Real.pi) / 2 < 1 := by
  have hπ : 0 < Real.pi := Real.pi_pos
  set θ := lat * Real.pi / 180 with hθ
  have hθ0 : 0 < θ := by positivity
  have hθ4 : θ < Real.pi / 4 := by
    rw [hθ]
    nlinarith [mul_pos (show (0 : ℝ) < 45 - lat by linarith) hπ]
  have hθ2 : θ < Real.pi / 2 := by linarith
  have htan0 : 0 < Real.tan θ := Real.tan_pos_of_pos_of_lt_pi_div_two hθ0 hθ2
  have htan1 : Real.tan θ < 1 := by
    have h := Real.tan_lt_tan_of_nonneg_of_lt_pi_div_two (le_of_lt hθ0)
      (by linarith) hθ4
    rwa [Real.tan_pi_div_four] at h
  have ha0 : 0 < Real.arsinh (Real.tan θ) := Real.arsinh_pos_iff.mpr htan0
  have hsinh : Real.pi < Real.sinh Real.pi := Real.self_lt_sinh_iff.mpr hπ
  have h3 : (3 : ℝ) < Real.pi := Real.pi_gt_three
  have haπ : Real.arsinh (Real.tan θ) < Real.pi := by
    have h1 : Real.tan θ < Real.sinh Real.pi := by linarith
    have h2 := Real.arsinh_lt_arsinh.mpr h1
    rwa [Real.arsinh_sinh] at h2
  have hd1 : Real.arsinh (Real.tan θ) / Real.pi < 1 := (div_lt_one hπ).mpr haπ
  have hd0 : 0 < Real.arsinh (Real.tan θ) / Real.pi := div_pos ha0 hπ
  constructor <;> linarith

/-- Both projected tile coordinates of a corner of the Shanghai box lie in
`[0, 2^z - 1]`. -/
lemma latlon_to_tile_bounds (lat lon : ℝ) (z : ℕ) (hlat0 : 0 < lat)
    (hlat45 : lat < 45) (hlon0 : 0 ≤ (lon + 180) / 360)
    (hlon1 : (lon + 180) / 360 < 1) :
    (0 ≤ (latlon_to_tile lat lon z).1 ∧ (latlon_to_tile lat lon z).1 ≤ 2 ^ z - 1) ∧
    (0 ≤ (latlon_to_tile lat lon z).2 ∧ (latlon_to_tile lat lon z).2 ≤ 2 ^ z - 1) := by
  unfold latlon_to_tile
  obtain ⟨hy0, hy1⟩ := yfrac_bounds lat hlat0 hlat45
  exact ⟨pyInt_frac_bounds _ z hlon0 hlon1, pyInt_frac_bounds _ z hy0 hy1⟩

/-- The rectangle computed by `_get_tile_range` is well-formed and inside
the zoom-`z` tile grid. -/
lemma get_tile_range_bounds (z : ℕ) :
    0 ≤ (get_tile_range z).x_min ∧ (get_tile_range z).x_min ≤ (get_tile_range z).x_max ∧
    (get_tile_range z).x_max ≤ 2 ^ z - 1 ∧
    0 ≤ (get_tile_range z).y_min ∧ (get_tile_range z).y_min ≤ (get_tile_range z).y_max ∧
    (get_tile_range z).y_max ≤ 2 ^ z - 1 := by
  obtain ⟨⟨ha1, ha2⟩, ⟨ha3, ha4⟩⟩ :=
    latlon_to_tile_bounds 31.88 120.85 z (by norm_num) (by norm_num)
      (by norm_num) (by norm_num)
  obtain ⟨⟨hb1, hb2⟩, ⟨hb3, hb4⟩⟩ :=
    latlon_to_tile_bounds 30.67 122.20 z (by norm_num) (by norm_num)
      (by norm_num) (by norm_num)
  have hM : (0 : ℤ) < 2 ^ z := pow_pos (by norm_num) z
  unfold get_tile_range
  dsimp only
  omega

/-- Python's `range(a, b + 1)` over the integers, as a list. -/
def pyRangeZ (a b : ℤ) : List ℤ :=
  (List.range (b + 1 - a).toNat).map fun i => a + Int.ofNat i

/-- Models `generate_coordinates(self)`: for each `z` in
`range(z_start, z_end + 1)` produce every `(z, x, y)` of the zoom's tile
rectangle, `x` outer loop, `y` inner loop. -/
noncomputable def generate_coordinates (z_start z_end : ℕ) : List (ℕ × ℤ × ℤ) :=
  (List.range' z_start (z_end + 1 - z_start)).flatMap fun z =>
    (pyRangeZ (get_tile_range z).x_min (get_tile_range z).x_max).flatMap fun x =>
      (pyRangeZ (get_tile_range z).y_min (get_tile_range z).y_max).map fun y =>
        (z, x, y)

/-- Strict lexicographic order on coordinate triples: zoom first, then
`x`, then `y`. -/
def coordLt (p q : ℕ × ℤ × ℤ) : Prop :=
  p.1 < q.1 ∨ (p.1 = q.1 ∧ (p.2.1 < q.2.1 ∨ (p.2.1 = q.2.1 ∧ p.2.2 < q.2.2)))

lemma coordLt_ne {p q : ℕ × ℤ × ℤ} (h : coordLt p q) : p ≠ q := by
  rintro rfl
  rcases h with h | ⟨_, h | ⟨_, h⟩⟩ <;> exact lt_irrefl _ h

lemma pyRangeZ_length (a b : ℤ) : (pyRangeZ a b).length = (b + 1 - a).toNat := by
  rw [pyRangeZ, List.length_map, List.length_range]

lemma pyRangeZ_pairwise (a b : ℤ) : (pyRangeZ a b).Pairwise (· < ·) := by
  rw [pyRangeZ]
  refine List.Pairwise.map _ ?_ (List.pairwise_lt_range _)
  intro i j h
  simp only [Int.ofNat_eq_natCast]
  omega

/-- Concatenating pairwise-ordered blocks in a block-ordered way yields a
pairwise-ordered list. -/
lemma pairwise_flatMap {α β : Type} {R : β → β → Prop} (l : List α)
    (f : α → List β) (h1 : ∀ a ∈ l, (f a).Pairwise R)
    (h2 : l.Pairwise fun a b => ∀ x ∈ f a, ∀ y ∈ f b, R x y) :
    (l.flatMap f).Pairwise R := by
  induction l with
  | nil => simp
  | cons a l ih =>
    rw [List.flatMap_cons, List.pairwise_append]
    obtain ⟨hhead, htail⟩ := List.pairwise_cons.mp h2
    refine ⟨h1 a (List.mem_cons_self a l),
      ih (fun b hb => h1 b (List.mem_cons_of_mem _ hb)) htail, ?_⟩
    intro x hx y hy
    obtain ⟨b, hb, hyb⟩ := List.mem_flatMap.mp hy
    exact hhead b hb x hx y hyb

lemma range'_pairwise (s n : ℕ) : (List.range' s n).Pairwise (· < ·) := by
  rw [List.range'_eq_map_range]
  exact List.Pairwise.map _ (fun _ _ h => by omega) (List.pairwise_lt_range _)

/-- The generated coordinate list is strictly increasing in the
(zoom, x, y) lexicographic order. -/
lemma generate_coordinates_pairwise (zs ze : ℕ) :
    (generate_coordinates zs ze).Pairwise coordLt := by
  unfold generate_coordinates
  apply pairwise_flatMap
  · intro z _
    apply pairwise_flatMap
    · intro x _
      exact List.Pairwise.map _ (fun y1 y2 h => Or.inr ⟨rfl, Or.inr ⟨rfl, h⟩⟩)
        (pyRangeZ_pairwise _ _)
    · apply (pyRangeZ_pairwise _ _).imp
      intro x1 x2 hxx p hp q hq
      obtain ⟨y1, _, rfl⟩ := List.mem_map.mp hp
      obtain ⟨y2, _, rfl⟩ := List.mem_map.mp hq
      exact Or.inr ⟨rfl, Or.inl hxx⟩
  · apply (range'_pairwise zs (ze + 1 - zs)).imp
    intro z1 z2 hzz p hp q hq
    obtain ⟨x1, _, hp2⟩ := List.mem_flatMap.mp hp
    obtain ⟨y1, _, rfl⟩ := List.mem_map.mp hp2
    obtain ⟨x2, _, hq2⟩ := List.mem_flatMap.mp hq
    obtain ⟨y2, _, rfl⟩ := List.mem_map.mp hq2
    exact Or.inl hzz

lemma generate_coordinates_nodup (zs ze : ℕ) :
    (generate_coordinates zs ze).Nodup :=
  (generate_coordinates_pairwise zs ze).imp coordLt_ne

lemma sum_map_const {α : Type} (l : List α) (c : ℕ) :
    (l.map fun _ => c).sum = l.length * c := by
  induction l with
  | nil => simp
  | cons a l ih =>
    simp only [List.map_cons, List.sum_cons, ih, List.length_cons]
    ring

/-- The generated list has exactly
`Σ_z (x_max - x_min + 1) * (y_max - y_min + 1)` elements. -/
lemma generate_coordinates_length (zs ze : ℕ) :
    (generate_coordinates zs ze).length =
      ((List.range' zs (ze + 1 - zs)).map fun z =>
        ((get_tile_range z).x_max - (get_tile_range z).x_min + 1).toNat *
        ((get_tile_range z).y_max - (get_tile_range z).y_min + 1).toNat).sum := by
  unfold generate_coordinates
  rw [List.length_flatMap]
  congr 1
  congr 1
  funext z
  simp only [Function.comp_apply]
  rw [List.length_flatMap]
  simp only [Function.comp_def, List.length_map]
  rw [sum_map_const]
  simp only [pyRangeZ_length]
  congr 1
  · congr 1
    ring
  · congr 1
    ring

/-- The collection loop visits every future exactly once and increments
the success counter exactly on `True` results. -/
lemma runLoop_counts (total : ℕ) (e : ℕ → ℚ) (bs : List Bool) :
    ∀ i s, (runLoop total e bs i s).1 = i + bs.length ∧
      (runLoop total e bs i s).2.1 = s + bs.count true := by
  induction bs with
  | nil =>
    intro i s
    simp [runLoop]
  | cons b rest ih =>
    intro i s
    obtain ⟨ih1, ih2⟩ := ih (i + 1) (if b then s + 1 else s)
    simp only [runLoop, List.length_cons, List.count_cons, ih1, ih2]
    constructor
    · omega
    · cases b <;> simp <;> omega

/-- Exact characterization of the emitted progress lines: one line per
index `j ≡ 0 (mod 100)`, showing `j + 1` completions out of `total`, the
running success rate over the first `j + 1` results, and `j` (not `j + 1`)
divided by the elapsed time. -/
lemma runLoop_lines (total : ℕ) (e : ℕ → ℚ) (bs : List Bool) :
    ∀ i s, (runLoop total e bs i s).2.2 =
      ((List.range' i bs.length).filter fun j => decide (j % 100 = 0)).map fun j =>
        ⟨j + 1, total, ((s + (bs.take (j + 1 - i)).count true : ℕ) : ℚ) / ((j : ℚ) + 1),
          (j : ℚ) / e j⟩ := by
  induction bs with
  | nil =>
    intro i s
    simp [runLoop]
  | cons b rest ih =>
    intro i s
    have hmap :
        ((List.range' (i + 1) rest.length).filter fun j => decide (j % 100 = 0)).map
          (fun j => (⟨j + 1, total,
            (((if b then s + 1 else s) + (rest.take (j + 1 - (i + 1))).count true : ℕ) : ℚ) /
              ((j : ℚ) + 1), (j : ℚ) / e j⟩ : ProgressLine)) =
        ((List.range' (i + 1) rest.length).filter fun j => decide (j % 100 = 0)).map
          (fun j => ⟨j + 1, total,
            ((s + ((b :: rest).take (j + 1 - i)).count true : ℕ) : ℚ) / ((j : ℚ) + 1),
            (j : ℚ) / e j⟩) := by
      apply List.map_congr_left
      intro j hj
      have hj1 : i + 1 ≤ j := (List.mem_range'_1.mp (List.mem_filter.mp hj).1).1
      have hsplit : j + 1 - i = (j - i) + 1 := by omega
      have htake : (b :: rest).take (j + 1 - i) = b :: rest.take (j - i) := by
        rw [hsplit, List.take_succ_cons]
      have hj2 : j + 1 - (i + 1) = j - i := by omega
      have hnum : (if b then s + 1 else s) + (rest.take (j + 1 - (i + 1))).count true
          = s + ((b :: rest).take (j + 1 - i)).count true := by
        rw [htake, List.count_cons, hj2]
        cases b <;> simp <;> omega
      rw [hnum]
    have hhead : (if b then s + 1 else s) = s + ((b :: rest).take (i + 1 - i)).count true := by
      have h1 : i + 1 - i = 1 := by omega
      rw [h1]
      cases b <;> simp [List.count_cons]
    have hstep : (runLoop total e (b :: rest) i s).2.2 =
        (if i % 100 = 0 then
          [⟨i + 1, total, ((if b then s + 1 else s : ℕ) : ℚ) / ((i : ℚ) + 1), (i : ℚ) / e i⟩]
        else []) ++ (runLoop total e rest (i + 1) (if b then s + 1 else s)).2.2 := rfl
    rw [hstep, ih (i + 1) (if b then s + 1 else s), hmap]
    simp only [List.length_cons, List.range'_succ, List.filter_cons]
    by_cases h : i % 100 = 0
    · rw [if_pos h]
      have hd : decide (i % 100 = 0) = true := by simp [h]
      rw [hd]
      simp only [if_true, List.map_cons, List.singleton_append]
      congr 1
      rw [hhead]
    · rw [if_neg h]
      have hd : decide (i % 100 = 0) = false := by simp [h]
      rw [hd]
      simp only [Bool.false_eq_true, if_false, List.nil_append]

/-! ### Sample fixtures used by witnesses and counterexamples -/

/-- A config with `overwrite = False` (the shipped default). -/
def cfgF : Config := ⟨"tiles", false⟩

/-- A config with `overwrite = True`. -/
def cfgT : Config := ⟨"tiles", true⟩

/-- The empty filesystem. -/
def fs0 : FS := ⟨[], []⟩

/-- A filesystem already holding the tile file for `(0, 0, 0)`. -/
def fsTile0 : FS := ⟨[tile_path cfgF 0 0 0], []⟩

/-- A filesystem already holding the tile file for `(1, 2, 3)`. -/
def fsTile123 : FS := ⟨[tile_path cfgF 1 2 3], []⟩

/-- Every request succeeds with HTTP 200; no filesystem failures. -/
def envOk : Env := ⟨fun _ => .status 200, false, false⟩

/-- Every request raises a transport-level exception. -/
def envExn : Env := ⟨fun _ => .exn, false, false⟩

/-- Every request comes back with HTTP 500. -/
def env500 : Env := ⟨fun _ => .status 500, false, false⟩

/-- An environment where `os.makedirs` raises (e.g. the save directory is
not writable). -/
def envMkdirFail : Env := ⟨fun _ => .status 200, true, false⟩

/-! ### Helper lemmas about the model -/

lemma FS.mkdirs_files (fs : FS) (d : String) : (fs.mkdirs d).files = fs.files := by
  unfold FS.mkdirs
  split <;> rfl

/-- Counting `True` results among the returned booleans counts exactly the
`success` outcomes. -/
lemma count_true_map_toBool (os : List Outcome) :
    (os.map Outcome.toBool).count true =
      os.countP fun o => decide (o = Outcome.success) := by
  induction os with
  | nil => rfl
  | cons o rest ih =>
    cases o <;> simp [List.count_cons, List.countP_cons, ih, Outcome.toBool]

/-- The retry loop bumps the `self.downloaded` accumulator exactly when it
ends in `success`. -/
lemma retryLoop_downloaded (env : Env) (path : String) :
    ∀ (fuel retry : ℕ) (fs : FS) (d : ℕ),
      (retryLoop env path fuel retry fs d).downloaded =
        d + (if (retryLoop env path fuel retry fs d).outcome = Outcome.success
          then 1 else 0) := by
  intro fuel
  induction fuel with
  | zero =>
    intro retry fs d
    simp [retryLoop]
  | succ n ih =>
    intro retry fs d
    cases hresp : env.resp retry with
    | exn => simp [retryLoop, hresp, ih]
    | status code =>
      by_cases hc : code = 200
      · by_cases hw : env.writeRaises
        · simp [retryLoop, hresp, hc, hw, ih]
        · simp [retryLoop, hresp, hc, hw]
      · simp [retryLoop, hresp, hc, ih]

/-! ### Claim C1: aggregation of results into the success counter -/

/-- Claim C1 counterexample: a skipped-existing fetch returns the Python
value `False`, so collecting its result leaves `success` at 0, not 1 as
the claim's "`successCount` incremented on SkippedExisting" demands. -/
theorem claim_C1_counterexample :
    (download_tile cfgF envOk fsTile0 0 0 0 0).result =
      PyResult.returns Outcome.skippedExisting ∧
    Outcome.skippedExisting.toBool = false ∧
    (runCollect (fun _ => 1) [Outcome.skippedExisting]).2.1 = 0 ∧
    (runCollect (fun _ => 1) [Outcome.skippedExisting]).2.1 ≠ 1 := by
  refine ⟨by decide, rfl, by decide, by decide⟩

/-- Claim C1 (amended): every collected result increments the completed
count by one, and the success counter counts exactly the results whose
outcome is `Success`; a `SkippedExisting` result does *not* count toward
the reported success rate, because the fetcher returns `False` for it. -/
theorem claim_C1_amended (e : ℕ → ℚ) (os : List Outcome) :
    (runCollect e os).1 = os.length ∧
    (runCollect e os).2.1 = os.countP fun o => decide (o = Outcome.success) := by
  obtain ⟨h1, h2⟩ := runLoop_counts os.length e (os.map Outcome.toBool) 0 0
  unfold runCollect
  rw [h1, h2, count_true_map_toBool]
  simp

/-! ### Claim C2: error containment at the fetcher boundary -/

/-- Claim C2 counterexample: a failing `os.makedirs` (which sits outside
the `try` block) escapes `download_tile` as an exception instead of being
surfaced as a `Failed` outcome. -/
theorem claim_C2_counterexample :
    (download_tile cfgF envMkdirFail fs0 0 0 0 0).result = PyResult.raised := by
  decide

/-- All errors arising inside the retry loop are contained: the call
returns an `Outcome` instead of raising. -/
def containedSpec (cfg : Config) (env : Env) (fs : FS) (d : ℕ) (z x y : ℤ) : Prop :=
  ∃ o : Outcome, (download_tile cfg env fs d z x y).result = PyResult.returns o

/-- Claim C2 (amended): every per-tile error raised inside the retry loop
(transport errors, non-200 statuses, body-write failures) is contained at
the fetcher boundary and surfaced as an outcome; the only exception that
can escape `download_tile` is a failure of the directory-creation call. -/
theorem claim_C2_amended (cfg : Config) (env : Env) (fs : FS) (d : ℕ) (z x y : ℤ)
    (h : env.mkdirRaises = false) : containedSpec cfg env fs d z x y := by
  by_cases hskip : (!cfg.overwrite && fs.fileExists (tile_path cfg z x y)) = true
  · exact ⟨.skippedExisting, by simp [download_tile, hskip]⟩
  · exact ⟨(retryLoop env (tile_path cfg z x y) 3 0 (fs.mkdirs (tile_dir cfg z x)) d).outcome,
      by simp [download_tile, hskip, h]⟩

/-- Witness for claim C2 (amended) at a concrete input. -/
theorem claim_C2_amended_witness :
    envExn.mkdirRaises = false ∧ containedSpec cfgF envExn fs0 0 0 0 0 :=
  ⟨rfl, claim_C2_amended cfgF envExn fs0 0 0 0 0 rfl⟩

/-! ### Claim C3: statistics mutation by the fetch operation -/

/-- Claim C3 counterexample: a successful `download_tile` increments the
downloader's `self.downloaded` accumulator from 0 to 1, so the fetch
operation does not leave the downloader's statistics state unchanged. -/
theorem claim_C3_counterexample :
    (download_tile cfgF envOk fs0 0 0 0 0).downloaded = 1 ∧
    (download_tile cfgF envOk fs0 0 0 0 0).downloaded ≠ 0 := by
  refine ⟨by decide, by decide⟩

/-- Claim C3 (amended): the scheduler's `success`/`i` counters live only in
the collection loop, but `download_tile` itself mutates the downloader's
`self.downloaded` accumulator: it adds exactly 1 on a `Success` outcome
and leaves the accumulator unchanged on every other path. -/
theorem claim_C3_amended (cfg : Config) (env : Env) (fs : FS) (d : ℕ) (z x y : ℤ) :
    (download_tile cfg env fs d z x y).downloaded =
      d + (if (download_tile cfg env fs d z x y).result =
        PyResult.returns Outcome.success then 1 else 0) := by
  unfold download_tile
  by_cases hskip : (!cfg.overwrite && fs.fileExists (tile_path cfg z x y)) = true
  · simp [hskip]
  · by_cases hmk : env.mkdirRaises
    · simp [hskip, hmk]
    · simp only [hskip, hmk]
      simp [retryLoop_downloaded]

/-! ### Claim C4: the per-zoom tile range -/

/-- Claim C4: for every zoom level `z ≥ 0` and the fixed Shanghai bounding
box, `_get_tile_range(z)` returns `0 ≤ x_min ≤ x_max ≤ 2^z - 1` and
`0 ≤ y_min ≤ y_max ≤ 2^z - 1`, and the quadruple is obtained by taking the
elementwise min/max of the two projected corners, expanding by one tile on
every side, and clipping to `[0, 2^z - 1]`. -/
theorem claim_C4_tile_range (z : ℕ) :
    (0 ≤ (get_tile_range z).x_min ∧ (get_tile_range z).x_min ≤ (get_tile_range z).x_max ∧
      (get_tile_range z).x_max ≤ 2 ^ z - 1) ∧
    (0 ≤ (get_tile_range z).y_min ∧ (get_tile_range z).y_min ≤ (get_tile_range z).y_max ∧
      (get_tile_range z).y_max ≤ 2 ^ z - 1) ∧
    get_tile_range z =
      { x_min := max 0
          (min (latlon_to_tile 31.88 120.85 z).1 (latlon_to_tile 30.67 122.20 z).1 - 1)
        x_max := min (2 ^ z - 1)
          (max (latlon_to_tile 31.88 120.85 z).1 (latlon_to_tile 30.67 122.20 z).1 + 1)
        y_min := max 0
          (min (latlon_to_tile 31.88 120.85 z).2 (latlon_to_tile 30.67 122.20 z).2 - 1)
        y_max := min (2 ^ z - 1)
          (max (latlon_to_tile 31.88 120.85 z).2 (latlon_to_tile 30.67 122.20 z).2 + 1) } := by
  obtain ⟨h1, h2, h3, h4, h5, h6⟩ := get_tile_range_bounds z
  exact ⟨⟨h1, h2, h3⟩, ⟨h4, h5, h6⟩, rfl⟩

/-! ### Claim C5: the coordinate enumeration -/

/-- The properties claimed of `generate_coordinates`: exact count
`Σ_z (x_max - x_min + 1)(y_max - y_min + 1)`, no duplicates, (zoom, x, y)
lexicographically ascending order, and restartability (re-enumeration
yields the identical sequence, the generator being a pure function of the
config). -/
def generatorSpec (z_start z_end : ℕ) : Prop :=
  (generate_coordinates z_start z_end).length =
      ((List.range' z_start (z_end + 1 - z_start)).map fun z =>
        ((get_tile_range z).x_max - (get_tile_range z).x_min + 1).toNat *
        ((get_tile_range z).y_max - (get_tile_range z).y_min + 1).toNat).sum ∧
  (generate_coordinates z_start z_end).Nodup ∧
  (generate_coordinates z_start z_end).Pairwise coordLt ∧
  generate_coordinates z_start z_end = generate_coordinates z_start z_end

/-- Claim C5: for every config with `z_start ≤ z_end` the coordinate
sequence is a finite, duplicate-free enumeration of exactly
`Σ_z (x_max - x_min + 1)(y_max - y_min + 1)` triples, ordered by zoom,
then x, then y, all ascending, and restartable. -/
theorem claim_C5_generator (z_start z_end : ℕ) (h : z_start ≤ z_end) :
    generatorSpec z_start z_end :=
  ⟨generate_coordinates_length z_start z_end,
   generate_coordinates_nodup z_start z_end,
   generate_coordinates_pairwise z_start z_end, rfl⟩

/-- Witness for claim C5 at the concrete zoom range `[0, 1]`. -/
theorem claim_C5_generator_witness : 0 ≤ 1 ∧ generatorSpec 0 1 :=
  ⟨by decide, claim_C5_generator 0 1 (by decide)⟩

/-! ### Claim C6: the progress report -/

/-- Claim C6 counterexample: on a single-coordinate run with elapsed time
1 second, the emitted line shows `completed = 1` but throughput `0/1 = 0`,
whereas the claim's `completedCount / elapsedSeconds` would be `1/1 = 1`
(the code prints `i / elapsed`, not `(i+1) / elapsed`). -/
theorem claim_C6_counterexample :
    (runCollect (fun _ => 1) [Outcome.success]).2.2 = [⟨1, 1, 1, 0⟩] ∧
    ((1 : ℚ) / 1 ≠ (0 : ℚ)) := by
  constructor
  · simp [runCollect, runLoop, Outcome.toBool]
  · norm_num

/-- Claim C6 (amended): a progress line is emitted exactly at collection
indices `j ≡ 0 (mod 100)` (including the first, so a 5-coordinate run
emits exactly one line, at index 0); each line reports `j + 1` completions
out of `totalTiles`, the running success rate `successCount / (j + 1)`,
and a throughput of `j` — that is, `completedCount - 1`, not
`completedCount` — divided by the elapsed seconds. -/
theorem claim_C6_amended :
    (∀ (e : ℕ → ℚ) (os : List Outcome),
      (runCollect e os).2.2 =
        ((List.range' 0 os.length).filter fun j => decide (j % 100 = 0)).map fun j =>
          ⟨j + 1, os.length,
            (((os.map Outcome.toBool).take (j + 1)).count true : ℚ) / ((j : ℚ) + 1),
            (j : ℚ) / e j⟩) ∧
    (runCollect (fun _ => 1) (List.replicate 5 Outcome.success)).2.2.length = 1 := by
  have hchar : ∀ (e : ℕ → ℚ) (os : List Outcome),
      (runCollect e os).2.2 =
        ((List.range' 0 os.length).filter fun j => decide (j % 100 = 0)).map fun j =>
          ⟨j + 1, os.length,
            (((os.map Outcome.toBool).take (j + 1)).count true : ℚ) / ((j : ℚ) + 1),
            (j : ℚ) / e j⟩ := by
    intro e os
    have h := runLoop_lines os.length e (os.map Outcome.toBool) 0 0
    simpa using h
  refine ⟨hchar, ?_⟩
  rw [hchar]
  decide

/-! ### Claim C7: the skip path and its idempotence -/

/-- First call returns `SkippedExisting` with no HTTP request and no state
change; a second call (under any HTTP environment) on the resulting state
again returns `SkippedExisting` with no HTTP request. -/
def skipSpec (cfg : Config) (env1 env2 : Env) (fs : FS) (d : ℕ) (z x y : ℤ) : Prop :=
  (download_tile cfg env1 fs d z x y).result = PyResult.returns Outcome.skippedExisting ∧
  (download_tile cfg env1 fs d z x y).httpCalls = 0 ∧
  (download_tile cfg env1 fs d z x y).fs = fs ∧
  (download_tile cfg env1 fs d z x y).downloaded = d ∧
  (download_tile cfg env2 (download_tile cfg env1 fs d z x y).fs
      (download_tile cfg env1 fs d z x y).downloaded z x y).result =
    PyResult.returns Outcome.skippedExisting ∧
  (download_tile cfg env2 (download_tile cfg env1 fs d z x y).fs
      (download_tile cfg env1 fs d z x y).downloaded z x y).httpCalls = 0

/-- Claim C7: if the target file exists and `overwrite` is false, the
fetch returns the skipped outcome immediately with no HTTP request, and
calling it twice yields the skipped outcome both times with no network
call on either invocation. -/
theorem claim_C7_skip_idempotent (cfg : Config) (env1 env2 : Env) (fs : FS)
    (d : ℕ) (z x y : ℤ) (hov : cfg.overwrite = false)
    (hex : fs.fileExists (tile_path cfg z x y) = true) :
    skipSpec cfg env1 env2 fs d z x y := by
  have hcond : (!cfg.overwrite && fs.fileExists (tile_path cfg z x y)) = true := by
    simp [hov, hex]
  have h1 : download_tile cfg env1 fs d z x y =
      ⟨.returns .skippedExisting, 0, [], fs, d⟩ := by
    simp [download_tile, hcond]
  have h2 : download_tile cfg env2 fs d z x y =
      ⟨.returns .skippedExisting, 0, [], fs, d⟩ := by
    simp [download_tile, hcond]
  unfold skipSpec
  rw [h1]
  dsimp only
  rw [h2]
  exact ⟨rfl, rfl, rfl, rfl, rfl, rfl⟩

/-- Witness for claim C7 at a concrete input. -/
theorem claim_C7_witness :
    cfgF.overwrite = false ∧ fsTile0.fileExists (tile_path cfgF 0 0 0) = true ∧
    skipSpec cfgF envOk envExn fsTile0 0 0 0 0 :=
  ⟨rfl, by decide,
    claim_C7_skip_idempotent cfgF envOk envExn fsTile0 0 0 0 0 rfl (by decide)⟩

/-! ### Claim C8: retry/backoff under transport errors -/

/-- Exactly three HTTP attempts, exponential backoff sleeps of `2^0`,
`2^1`, `2^2` seconds, and a `Failed` outcome. -/
def transientFailSpec (cfg : Config) (env : Env) (fs : FS) (d : ℕ) (z x y : ℤ) : Prop :=
  (download_tile cfg env fs d z x y).httpCalls = 3 ∧
  (download_tile cfg env fs d z x y).sleeps = [1, 2, 4] ∧
  (download_tile cfg env fs d z x y).result = PyResult.returns Outcome.failed

/-- Claim C8: when every HTTP attempt raises a transport-level exception,
the fetch performs exactly 3 attempts, sleeps `2^0 = 1`, `2^1 = 2`,
`2^2 = 4` seconds after attempts 0, 1, 2, and returns `Failed`. -/
theorem claim_C8_retry_backoff (cfg : Config) (env : Env) (fs : FS) (d : ℕ)
    (z x y : ℤ)
    (hskip : (!cfg.overwrite && fs.fileExists (tile_path cfg z x y)) = false)
    (hmk : env.mkdirRaises = false)
    (hresp : ∀ k, k < 3 → env.resp k = HttpResponse.exn) :
    transientFailSpec cfg env fs d z x y := by
  have e0 := hresp 0 (by omega)
  have e1 := hresp 1 (by omega)
  have e2 := hresp 2 (by omega)
  unfold transientFailSpec download_tile
  simp [hskip, hmk, retryLoop, e0, e1, e2]

/-- Witness for claim C8 at a concrete input. -/
theorem claim_C8_witness :
    (!cfgF.overwrite && fs0.fileExists (tile_path cfgF 0 0 0)) = false ∧
    envExn.mkdirRaises = false ∧ (∀ k, k < 3 → envExn.resp k = HttpResponse.exn) ∧
    transientFailSpec cfgF envExn fs0 0 0 0 0 :=
  ⟨by decide, rfl, fun _ _ => rfl,
    claim_C8_retry_backoff cfgF envExn fs0 0 0 0 0 (by decide) rfl (fun _ _ => rfl)⟩

/-! ### Claim C9: non-200 responses -/

/-- Exactly three attempts with a 1-second sleep after each non-200
response, a `Failed` outcome, and no file ever created. -/
def non200FailSpec (cfg : Config) (env : Env) (fs : FS) (d : ℕ) (z x y : ℤ) : Prop :=
  (download_tile cfg env fs d z x y).httpCalls = 3 ∧
  (download_tile cfg env fs d z x y).sleeps = [1, 1, 1] ∧
  (download_tile cfg env fs d z x y).result = PyResult.returns Outcome.failed ∧
  (download_tile cfg env fs d z x y).fs.files = fs.files

/-- Claim C9: when the server returns a non-200 status on all 3 attempts,
the fetch sleeps 1 second after each response, returns `Failed`, and the
target file is never created (the set of files is unchanged; only the
parent directory may have been created). -/
theorem claim_C9_non200 (cfg : Config) (env : Env) (fs : FS) (d : ℕ) (z x y : ℤ)
    (hskip : (!cfg.overwrite && fs.fileExists (tile_path cfg z x y)) = false)
    (hmk : env.mkdirRaises = false)
    (hresp : ∀ k, k < 3 → ∃ c, env.resp k = HttpResponse.status c ∧ c ≠ 200) :
    non200FailSpec cfg env fs d z x y := by
  obtain ⟨c0, hc0, hn0⟩ := hresp 0 (by omega)
  obtain ⟨c1, hc1, hn1⟩ := hresp 1 (by omega)
  obtain ⟨c2, hc2, hn2⟩ := hresp 2 (by omega)
  unfold non200FailSpec download_tile
  simp [hskip, hmk, retryLoop, hc0, hc1, hc2, hn0, hn1, hn2, FS.mkdirs_files]

/-- Witness for claim C9 at a concrete input. -/
theorem claim_C9_witness :
    (!cfgF.overwrite && fs0.fileExists (tile_path cfgF 0 0 0)) = false ∧
    env500.mkdirRaises = false ∧
    (∀ k, k < 3 → ∃ c, env500.resp k = HttpResponse.status c ∧ c ≠ 200) ∧
    non200FailSpec cfgF env500 fs0 0 0 0 0 :=
  ⟨by decide, rfl, fun _ _ => ⟨500, rfl, by decide⟩,
    claim_C9_non200 cfgF env500 fs0 0 0 0 0 (by decide) rfl
      (fun _ _ => ⟨500, rfl, by decide⟩)⟩

/-! ### Claim C10: the skip path performs no filesystem mutation -/

/-- A skipped tile leaves the filesystem (files *and* directories)
untouched: the existence check precedes directory creation. -/
def skipNoMutationSpec (cfg : Config) (env : Env) (fs : FS) (d : ℕ) (z x y : ℤ) : Prop :=
  (download_tile cfg env fs d z x y).fs = fs ∧
  (download_tile cfg env fs d z x y).result = PyResult.returns Outcome.skippedExisting ∧
  (download_tile cfg env fs d z x y).httpCalls = 0 ∧
  (download_tile cfg env fs d z x y).sleeps = []

/-- Claim C10: when the target file exists and `overwrite` is false, the
fetch performs no filesystem mutation at all — no directory is created
and no file is written — because the existence check precedes the
`os.makedirs` call. -/
theorem claim_C10_skip_frame (cfg : Config) (env : Env) (fs : FS) (d : ℕ)
    (z x y : ℤ) (hov : cfg.overwrite = false)
    (hex : fs.fileExists (tile_path cfg z x y) = true) :
    skipNoMutationSpec cfg env fs d z x y := by
  have hcond : (!cfg.overwrite && fs.fileExists (tile_path cfg z x y)) = true := by
    simp [hov, hex]
  unfold skipNoMutationSpec
  simp [download_tile, hcond]

/-- Witness for claim C10 at a concrete input (for an environment whose
directory creation would raise, showing it is never reached). -/
theorem claim_C10_witness :
    cfgF.overwrite = false ∧ fsTile123.fileExists (tile_path cfgF 1 2 3) = true ∧
    skipNoMutationSpec cfgF envMkdirFail fsTile123 0 1 2 3 :=
  ⟨rfl, by decide,
    claim_C10_skip_frame cfgF envMkdirFail fsTile123 0 1 2 3 rfl (by decide)⟩

